import Mathlib

/-!
Verification of the AI-Library catalog builder and search engine:
a shallow embedding of `catalog_builder.py`, `search_engine.py` and
`ai_client.py`, with theorems about extraction bounds, store
consistency, change detection, search fallback and response parsing.
-/

namespace AILibrary

/-- Extraction metadata: the open key-value map attached to each file
(Python dict of string keys; values rendered as strings). -/
abbrev Meta := List (String × String)

/-- `_extract_text_content`: the file body is the `.ok` payload (read with
`errors='ignore'`, which never fails on bad bytes); any read exception is
the `.error` payload. Truncates to 10000 chars plus a `"..."` marker. -/
def extractTextContent : Except String (List Char) → List Char × Meta
  | .ok content =>
      let truncated :=
        if 10000 < content.length then content.take 10000 ++ "...".toList else content
      (truncated, [("file_type", "text"), ("char_count", toString truncated.length)])
  | .error e => ([], [("error", e)])

/-- `_extract_pdf_content`: pages are the extracted text of each PDF page;
only the first 5 pages are read, each followed by a newline, and the
result is truncated to 5000 chars. -/
def extractPdfContent : Except String (List (List Char)) → List Char × Meta
  | .ok pages =>
      let text := ((pages.take 5).map (fun p => p ++ ['\n'])).flatten
      (text.take 5000,
        [("file_type", "pdf"), ("page_count", toString pages.length),
         ("char_count", toString text.length)])
  | .error e => ([], [("error", e)])

/-- `_extract_docx_content`: paragraph texts joined by newlines, truncated
to 5000 chars. -/
def extractDocxContent : Except String (List (List Char)) → List Char × Meta
  | .ok paragraphs =>
      let text := List.intercalate ['\n'] paragraphs
      (text.take 5000,
        [("file_type", "docx"), ("paragraph_count", toString paragraphs.length),
         ("char_count", toString text.length)])
  | .error e => ([], [("error", e)])

/-- One sheet of `_extract_excel_content`: the first 20 rows, each row the
space-join of its non-`None` cells (already stringified), rows that strip
to empty dropped; an all-empty sheet contributes nothing. -/
def excelSheetText (sheet : String × List (List (Option String))) : Option String :=
  let sheetContent := (sheet.2.take 20).filterMap (fun row =>
    let rowText := " ".intercalate (row.filterMap id)
    if rowText.trim ≠ "" then some rowText else none)
  if sheetContent.isEmpty then none
  else some ("Sheet " ++ sheet.1 ++ ": " ++ " | ".intercalate sheetContent)

/-- `_extract_excel_content`: first 3 sheets, joined by newlines, truncated
to 3000 chars. -/
def extractExcelContent :
    Except String (List (String × List (List (Option String)))) → List Char × Meta
  | .ok sheets =>
      let text := "\n".intercalate ((sheets.take 3).filterMap excelSheetText)
      (text.toList.take 3000,
        [("file_type", "excel"), ("sheet_count", toString sheets.length),
         ("char_count", toString text.length)])
  | .error e => ([], [("error", e)])

/-- `_extract_image_metadata`: no text; format, pixel size, colour mode,
plus EXIF string tags shorter than 100 chars, prefixed `exif_`. -/
def extractImageMetadata :
    Except String (String × Nat × Nat × String × List (String × String)) → List Char × Meta
  | .ok (fmt, w, h, mode, exif) =>
      ([], [("file_type", "image"), ("format", fmt),
            ("size", "(" ++ toString w ++ ", " ++ toString h ++ ")"), ("mode", mode)]
          ++ (exif.filter (fun kv => kv.2.length < 100)).map
              (fun kv => ("exif_" ++ kv.1, kv.2)))
  | .error e => ([], [("error", e)])

/-- `_extract_audio_metadata`: `none` models a container mutagen cannot
parse (falsy `audio_file`); otherwise duration/bitrate plus normalised
string tags. -/
def extractAudioMetadata :
    Except String (Option ((String × String) × List (String × String))) → List Char × Meta
  | .ok (some (info, tags)) =>
      ([], [("file_type", "audio"), ("length", info.1), ("bitrate", info.2)] ++ tags)
  | .ok none => ([], [("file_type", "audio")])
  | .error e => ([], [("error", e)])

/-- `size_mb = round(st_size / (1024*1024), 2)` as an exact rational. -/
def videoSizeMb (sizeBytes : Nat) : ℚ :=
  (round ((sizeBytes : ℚ) / (1024 * 1024) * 100) : ℤ) / 100

/-- `_extract_video_metadata`: no text; approximate size in MB only. -/
def extractVideoMetadata : Except String Nat → List Char × Meta
  | .ok sizeBytes => ([], [("file_type", "video"), ("size_mb", toString (videoSizeMb sizeBytes))])
  | .error e => ([], [("error", e)])

/-- The per-file payload handed to `_extract_content_and_metadata`, one
variant per extension family it dispatches on; each variant carries the
outcome of the underlying read. -/
inductive FileContent where
  | text : Except String (List Char) → FileContent
  | pdf : Except String (List (List Char)) → FileContent
  | docx : Except String (List (List Char)) → FileContent
  | excel : Except String (List (String × List (List (Option String)))) → FileContent
  | image : Except String (String × Nat × Nat × String × List (String × String)) → FileContent
  | audio : Except String (Option ((String × String) × List (String × String))) → FileContent
  | video : Except String Nat → FileContent
  | other : String → FileContent

/-- `_extract_content_and_metadata`: dispatch by extension family; unknown
types yield no text and a bare `file_type` entry. -/
def extractContentAndMetadata : FileContent → List Char × Meta
  | .text r => extractTextContent r
  | .pdf r => extractPdfContent r
  | .docx r => extractDocxContent r
  | .excel r => extractExcelContent r
  | .image r => extractImageMetadata r
  | .audio r => extractAudioMetadata r
  | .video r => extractVideoMetadata r
  | .other ext => ([], [("file_type", ext)])

/-! ## Catalog store (SQLite `files` table + `files_fts` index) -/

/-- One row of the `files` table (the columns the claims touch; `id` is the
`INTEGER PRIMARY KEY AUTOINCREMENT` rowid, `path` is `UNIQUE`). -/
structure FileRow where
  id : Nat
  path : String
  name : String
  contentHash : String
  description : String
  contentText : String
deriving DecidableEq, Repr

/-- One row of the `files_fts` full-text index, keyed by `rowid`. -/
structure FtsRow where
  rowid : Nat
  name : String
  description : String
  contentText : String
deriving DecidableEq, Repr

/-- The dual-indexed store: the relational table, the full-text index, and
the next rowid the `AUTOINCREMENT` column will hand out (SQLite with
AUTOINCREMENT never reuses a rowid). -/
structure Catalog where
  files : List FileRow
  fts : List FtsRow
  nextId : Nat
deriving DecidableEq, Repr

def emptyCatalog : Catalog := ⟨[], [], 0⟩

/-- The two statements of `build_catalog`'s write path:
`INSERT OR REPLACE INTO files` (the UNIQUE conflict on `path` deletes the
old row; the omitted `id` column receives a fresh autoincrement value)
followed by `INSERT OR REPLACE INTO files_fts (rowid, ...)` at
`last_insert_rowid()` — i.e. at the fresh id only. -/
def upsertFile (c : Catalog) (path name hash desc content : String) : Catalog :=
  let newId := c.nextId
  { files := c.files.filter (fun r => r.path != path) ++ [⟨newId, path, name, hash, desc, content⟩]
    fts := c.fts.filter (fun r => r.rowid != newId) ++ [⟨newId, name, desc, content⟩]
    nextId := newId + 1 }

/-- `SELECT ... FROM files WHERE path = ?` with `fetchone()`. -/
def lookupRow (c : Catalog) (path : String) : Option FileRow :=
  c.files.find? (fun r => r.path == path)

/-! ## Change detector and build pipeline -/

/-- `_is_file_already_indexed`: compare the stored `content_hash` for the
path against the digest of the file's current bytes; no stored row (a
`None` fetch) is falsy. `hash` is the digest function (`_get_file_hash`);
a file is a `(path, bytes)` pair. -/
def isFileAlreadyIndexed (c : Catalog) (hash : String → String) (f : String × String) : Bool :=
  match lookupRow c f.1 with
  | some r => r.contentHash == hash f.2
  | none => false

/-- The fields of `_process_file`'s `file_info` dict that reach the store. -/
structure FileInfo where
  name : String
  contentHash : String
  description : String
  contentText : String
deriving DecidableEq, Repr

/-- `Path.name`: the last `/`-separated component. -/
def pathName (p : String) : String := ((p.splitOn "/").getLast?).getD p

/-- `_process_file` when every step succeeds: basic info, extracted text
and the AI description; `describe` and `extract` stand for
`ai_client.generate_description` and `_extract_content_and_metadata`. -/
def processFile (hash : String → String) (describe : String → String → String)
    (extract : String → String) (f : String × String) : Option FileInfo :=
  some ⟨pathName f.1, hash f.2, describe f.1 f.2, extract f.2⟩

/-- One iteration of `build_catalog`'s loop: skip when the change detector
says the file is already indexed; otherwise process it — a `none` from
`proc` is `_process_file` returning `None` (or the per-file `except`
firing), which leaves the store untouched and moves on. -/
def buildStep (hash : String → String) (proc : String × String → Option FileInfo)
    (c : Catalog) (f : String × String) : Catalog :=
  if isFileAlreadyIndexed c hash f then c
  else
    match proc f with
    | none => c
    | some fi => upsertFile c f.1 fi.name fi.contentHash fi.description fi.contentText

/-- `build_catalog`: fold the per-file step over the enumerated files. -/
def buildCatalog (hash : String → String) (proc : String × String → Option FileInfo)
    (files : List (String × String)) (c : Catalog) : Catalog :=
  files.foldl (buildStep hash proc) c

/-! ## Search engine -/

/-- One entry of `_get_file_descriptions`'s list (the dict built per row,
description fallback already applied there); `size` may be NULL. -/
structure FileSummary where
  id : Nat
  name : String
  path : String
  description : String
  fileType : String
  size : Option Int
deriving DecidableEq, Repr

/-- One formatted file in a search result (size already human-readable). -/
structure MatchedFile where
  name : String
  path : String
  description : String
  fileType : String
  size : String
deriving DecidableEq, Repr

/-- The dict returned by `search`. -/
structure SearchResult where
  message : String
  files : List MatchedFile
deriving DecidableEq, Repr

/-- The dict returned by `ai_client.search_query`: `fileNumbers = none`
models the exception branch whose dict has no `file_numbers` key. -/
structure AIResponse where
  message : String
  fileNumbers : Option (List Int)
deriving DecidableEq, Repr

/-- Python's `f"{x:.1f}"` on a non-negative value: round to one decimal
and print `<int>.<digit>`. -/
def formatOneDecimal (q : ℚ) : String :=
  let n : ℤ := round (q * 10)
  toString (n / 10) ++ "." ++ toString (n % 10)

/-- The unit loop of `_format_file_size`: stop at the first unit where the
value is below 1024, dividing by 1024 each step; TB is the last resort. -/
def formatSizeLoop (size : ℚ) : List String → String
  | [] => formatOneDecimal size ++ " TB"
  | u :: us => if size < 1024 then formatOneDecimal size ++ " " ++ u
               else formatSizeLoop (size / 1024) us

/-- `_format_file_size`: `None` renders as `"Unknown"`. -/
def formatFileSize : Option ℚ → String
  | none => "Unknown"
  | some size => formatSizeLoop size ["B", "KB", "MB", "GB"]

/-- The dict built for each matched file (in `_get_files_by_numbers`). -/
def toMatchedFile (fi : FileSummary) : MatchedFile :=
  ⟨fi.name, fi.path, fi.description, fi.fileType, formatFileSize (fi.size.map (fun s => (s : ℚ)))⟩

/-- `_get_files_by_numbers`: keep each returned number only when it lies
in `[1, len(file_descriptions)]`, resolving it 1-based into the full
list; out-of-range numbers contribute nothing. -/
def getFilesByNumbers (fileNumbers : List Int) (fileDescriptions : List FileSummary) :
    List MatchedFile :=
  fileNumbers.filterMap (fun num =>
    if 1 ≤ num ∧ num ≤ (fileDescriptions.length : Int) then
      (fileDescriptions[(num - 1).toNat]?).map toMatchedFile
    else none)

/-- Helper for Python's `str.split()`: `acc` holds the reversed characters
of the word being read; words end at whitespace and empty words are never
emitted. -/
def pySplitWhitespaceAux : List Char → List Char → List String
  | acc, [] => if acc.isEmpty then [] else [String.mk acc.reverse]
  | acc, c :: t =>
    if c.isWhitespace then
      if acc.isEmpty then pySplitWhitespaceAux [] t
      else String.mk acc.reverse :: pySplitWhitespaceAux [] t
    else pySplitWhitespaceAux (c :: acc) t

/-- Python `str.split()` (no argument): split on whitespace runs,
discarding empty pieces. -/
def pySplitWhitespace (s : String) : List String :=
  pySplitWhitespaceAux [] s.toList

/-- `' OR '.join(query.split())`: the FTS5 match string. -/
def ftsQueryString (query : String) : String :=
  " OR ".intercalate (pySplitWhitespace query)

/-- One row of the `files_fts MATCH ... ORDER BY rank` join; a NULL
description is modelled as the empty string (both are falsy under
Python's `or`). -/
structure FtsDbRow where
  name : String
  path : String
  description : String
  fileType : String
  size : Option Int
deriving DecidableEq, Repr

/-- `_fts_search`: hand the OR-joined match string to the database —
`db` stands for the SQLite `MATCH ... ORDER BY rank` evaluation, returning
relevance-ordered matches — keep at most 10 (`LIMIT 10`) and format each
row as `search` returns it. -/
def ftsSearch (db : String → List FtsDbRow) (query : String) : List MatchedFile :=
  ((db (ftsQueryString query)).take 10).map (fun r =>
    ⟨r.name, r.path, (if r.description = "" then "File: " ++ r.name else r.description),
     r.fileType, formatFileSize (r.size.map (fun s => (s : ℚ)))⟩)

/-- `_get_file_descriptions`'s error handling: any store exception
degrades to the empty list. -/
def getFileDescriptionsResult (r : Except String (List FileSummary)) : List FileSummary :=
  match r with
  | .ok l => l
  | .error _ => []

/-- `ai_client.search_query`'s error handling: any backend exception
degrades to an apology dict that carries no `file_numbers` key. -/
def aiSearchQueryResult (r : Except String AIResponse) : AIResponse :=
  match r with
  | .ok a => a
  | .error _ => ⟨"I encountered an error while searching. Please try again.", none⟩

/-- The guard `if 'file_numbers' in ai_response and ai_response['file_numbers']`
followed by `_get_files_by_numbers`. -/
def selectedFiles (ai : AIResponse) (fileDescriptions : List FileSummary) : List MatchedFile :=
  match ai.fileNumbers with
  | some nums => if nums.isEmpty then [] else getFilesByNumbers nums fileDescriptions
  | none => []

def noCatalogMessage : String :=
  "No files have been cataloged yet. Please wait for the catalog to complete."

/-- The synthesized fallback message
`f"I found {len(matched_files)} files that might match your search for '{query}':"`. -/
def foundMessage (query : String) (n : Nat) : String :=
  "I found " ++ toString n ++ " files that might match your search for \x27" ++ query ++ "\x27:"

/-- `SearchEngine.search`: empty catalog short-circuits; otherwise take the
AI selection, and when it yields nothing fall back to lexical full-text
search over the same query, synthesizing the found-N message when the
fallback is non-empty. The store read, the AI stage and the lexical stage
are passed as their (fallible) outcomes: each already catches its own
exceptions, so every path ends in a `SearchResult`. -/
def searchEngineSearch (query : String) (descsR : Except String (List FileSummary))
    (aiR : Except String AIResponse) (ftsFn : String → List MatchedFile) : SearchResult :=
  let fileDescriptions := getFileDescriptionsResult descsR
  if fileDescriptions.isEmpty then ⟨noCatalogMessage, []⟩
  else
    let aiResponse := aiSearchQueryResult aiR
    let matchedFiles := selectedFiles aiResponse fileDescriptions
    if matchedFiles.isEmpty then
      let fallback := ftsFn query
      if fallback.isEmpty then ⟨aiResponse.message, []⟩
      else ⟨foundMessage query fallback.length, fallback⟩
    else ⟨aiResponse.message, matchedFiles⟩

/-! ## AI client: prompt construction and response parsing -/

/-- The numbered candidate lines of `_create_search_prompt`:
`f"{i+1}. {name} - {description}"` over `enumerate(file_descriptions[:50])`. -/
def searchPromptLines (fileDescriptions : List FileSummary) : List String :=
  (fileDescriptions.take 50).enum.map (fun p =>
    toString (p.1 + 1) ++ ". " ++ p.2.name ++ " - " ++ p.2.description ++ "\n")

/-- `_create_search_prompt`: header, the numbered candidate list (at most
the first 50 files), and the MESSAGE/FILES format instructions. -/
def createSearchPrompt (query : String) (fileDescriptions : List FileSummary) : String :=
  "User is searching for: \x27" ++ query ++ "\x27\n\n"
    ++ "Here are the available files with their descriptions:\n\n"
    ++ String.join (searchPromptLines fileDescriptions)
    ++ "\nBased on the user\x27s query \x27" ++ query ++ "\x27, which files are most relevant? "
    ++ "Respond with a helpful message and list the relevant file numbers (if any). "
    ++ "Format your response as: MESSAGE: [your helpful message] FILES: [comma-separated list of file numbers, or \x27none\x27 if no matches]"

/-- Helper for Python's `str.find`: first index at or after `i` where the
pattern is a prefix of the remaining characters. -/
def pyFindAux (pat : List Char) : Nat → List Char → Option Nat
  | i, [] => if pat.isPrefixOf ([] : List Char) then some i else none
  | i, c :: t => if pat.isPrefixOf (c :: t) then some i else pyFindAux pat (i + 1) t

/-- Python's `str.find`: index of the first occurrence, `-1` if absent. -/
def pyFind (s pat : String) : Int :=
  match pyFindAux pat.toList 0 s.toList with
  | some i => (i : Int)
  | none => -1

/-- Python's `str.strip()` on a character list. -/
def pyStripL (l : List Char) : List Char :=
  ((l.dropWhile Char.isWhitespace).reverse.dropWhile Char.isWhitespace).reverse

/-- Python's `str.strip()`. -/
def pyStrip (s : String) : String := String.mk (pyStripL s.toList)

/-- Python's `str.lower()` (ASCII view). -/
def pyLower (s : String) : String := String.mk (s.toList.map Char.toLower)

/-- Python's `str.isdigit()` (ASCII view): non-empty and all digits. -/
def pyIsDigit (s : String) : Bool := s != "" && s.toList.all Char.isDigit

/-- Helper for Python's `str.split(',')`: split at every comma, keeping
empty pieces. -/
def pySplitCommaAux : List Char → List Char → List String
  | acc, [] => [String.mk acc.reverse]
  | acc, c :: t =>
    if c = ',' then String.mk acc.reverse :: pySplitCommaAux [] t
    else pySplitCommaAux (c :: acc) t

/-- Python's `str.split(',')`. -/
def pySplitComma (s : String) : List String := pySplitCommaAux [] s.toList

/-- Python's `int()` on a string of decimal digits. -/
def digitsToNat (l : List Char) : Nat :=
  l.foldl (fun n c => n * 10 + (c.toNat - ('0').toNat)) 0

/-- One token of `files_text.split(',')`: kept only when its stripped form
`isdigit()`, in which case `int()` of a digit-only string is its decimal
value (necessarily non-negative). -/
def tokenToFileNumber (x : String) : Option Int :=
  let t := pyStrip x
  if pyIsDigit t then some (Int.ofNat (digitsToNat t.toList)) else none

/-- The file-number list parsed from the text after `FILES:`. -/
def parseFileNumbers (filesText : String) : List Int :=
  if pyLower filesText != "none" then (pySplitComma filesText).filterMap tokenToFileNumber
  else []

/-- `_parse_search_response`: when both the `MESSAGE:` and `FILES:` markers
are present, the message is the stripped slice between them and the
numbers are parsed from the stripped tail; when either marker is missing,
the entire raw response becomes the message with no selections. -/
def parseSearchResponse (response query : String) : AIResponse :=
  let messageStart := pyFind response "MESSAGE:"
  let filesStart := pyFind response "FILES:"
  if messageStart != -1 && filesStart != -1 then
    let rl := response.toList
    let message :=
      String.mk (pyStripL ((rl.drop (messageStart.toNat + 8)).take
        (filesStart.toNat - (messageStart.toNat + 8))))
    let filesText := String.mk (pyStripL (rl.drop (filesStart.toNat + 6)))
    ⟨message, some (parseFileNumbers filesText)⟩
  else ⟨response, some []⟩

/-! ## General helper lemmas -/

theorem formatSizeLoop_lt (size : ℚ) (u : String) (us : List String) (h : size < 1024) :
    formatSizeLoop size (u :: us) = formatOneDecimal size ++ " " ++ u := by
  simp [formatSizeLoop, h]

theorem formatSizeLoop_ge (size : ℚ) (u : String) (us : List String) (h : ¬ size < 1024) :
    formatSizeLoop size (u :: us) = formatSizeLoop (size / 1024) us := by
  simp [formatSizeLoop, h]

theorem string_mk_ne_empty (l : List Char) (h : l.isEmpty = false) : String.mk l ≠ "" := by
  intro hc
  have hl : l = [] := congrArg String.data hc
  rw [hl] at h
  simp at h

theorem pySplitWhitespaceAux_ne_empty (l : List Char) :
    ∀ acc t, t ∈ pySplitWhitespaceAux acc l → t ≠ "" := by
  induction l with
  | nil =>
    intro acc t ht
    by_cases h : acc.isEmpty
    · simp [pySplitWhitespaceAux, h] at ht
    · simp only [pySplitWhitespaceAux, h, Bool.false_eq_true, if_false, List.mem_singleton] at ht
      subst ht
      exact string_mk_ne_empty _ (by simp [List.isEmpty_eq_true]; intro hc; rw [hc] at h; simp at h)
  | cons c rest ih =>
    intro acc t ht
    by_cases hw : c.isWhitespace
    · by_cases h : acc.isEmpty
      · rw [pySplitWhitespaceAux] at ht
        simp only [hw, if_true, h, if_true] at ht
        exact ih [] t ht
      · rw [pySplitWhitespaceAux] at ht
        simp only [hw, if_true, h, Bool.false_eq_true, if_false, List.mem_cons] at ht
        rcases ht with ht | ht
        · subst ht
          exact string_mk_ne_empty _
            (by simp [List.isEmpty_eq_true]; intro hc; rw [hc] at h; simp at h)
        · exact ih [] t ht
    · rw [pySplitWhitespaceAux] at ht
      simp only [hw, Bool.false_eq_true, if_false] at ht
      exact ih (c :: acc) t ht

/-! ## C1: extraction truncation bounds -/

/-- C1 (counterexample): a plain-text file of 10001 characters is handed
downstream as 10003 characters — the 10000-char cut plus the three-char
`"..."` marker — so `len(extracted_text) <= 10000` fails for the
plain-text cap. -/
theorem text_truncation_exceeds_claimed_cap :
    (extractTextContent (.ok (List.replicate 10001 'a'))).1.length = 10003 ∧
    ¬ (extractTextContent (.ok (List.replicate 10001 'a'))).1.length ≤ 10000 := by
  have h3 : ("...".toList).length = 3 := rfl
  have h : (extractTextContent (.ok (List.replicate 10001 'a'))).1.length = 10003 := by
    simp only [extractTextContent, List.length_replicate]
    norm_num [List.length_take, List.length_append, List.length_replicate, h3]
  exact ⟨h, by omega⟩

/-- C1 (amended): every extractor's text stays within its type-specific
cap — 5000 for PDF, 5000 for word-processor documents, 3000 for
spreadsheets — except that plain text is capped at 10000 characters plus
a 3-character ellipsis marker, i.e. at 10003; extraction is total, so
oversized input never throws. -/
theorem extraction_truncation_bounds :
    (∀ r, (extractTextContent r).1.length ≤ 10003) ∧
    (∀ r, (extractPdfContent r).1.length ≤ 5000) ∧
    (∀ r, (extractDocxContent r).1.length ≤ 5000) ∧
    (∀ r, (extractExcelContent r).1.length ≤ 3000) := by
  have h3 : ("...".toList).length = 3 := rfl
  refine ⟨fun r => ?_, fun r => ?_, fun r => ?_, fun r => ?_⟩
  · match r with
    | .error e => simp [extractTextContent]
    | .ok content =>
      by_cases h : 10000 < content.length
      · simp only [extractTextContent, if_pos h]
        simp [List.length_append, List.length_take, h3]
      · simp only [extractTextContent, if_neg h]
        omega
  · match r with
    | .error e => simp [extractPdfContent]
    | .ok pages => simpa [extractPdfContent] using List.length_take_le _ _
  · match r with
    | .error e => simp [extractDocxContent]
    | .ok paragraphs => simpa [extractDocxContent] using List.length_take_le _ _
  · match r with
    | .error e => simp [extractExcelContent]
    | .ok sheets => simpa [extractExcelContent] using List.length_take_le _ _

/-! ## C2: full-text index / primary table consistency -/

/-- C2 (the code violates the claim): re-indexing an existing path replaces
the `files` row under a fresh autoincrement id, but the `files_fts` write
only touches the fresh id — the old full-text row survives as an orphan
whose rowid matches no row of `files`. -/
theorem fts_orphan_after_reindex :
    ∃ r ∈ (upsertFile (upsertFile emptyCatalog "/a" "a.txt" "h1" "d1" "t1")
            "/a" "a.txt" "h2" "d2" "t2").fts,
      ∀ f ∈ (upsertFile (upsertFile emptyCatalog "/a" "a.txt" "h1" "d1" "t1")
              "/a" "a.txt" "h2" "d2" "t2").files,
        f.id ≠ r.rowid := by decide

/-! ## C6: extraction failure shape and per-file failure isolation -/

/-- C6: every extraction failure degrades to empty text with an `error`
metadata entry carrying the reason, and a file whose processing fails
leaves the store untouched while the rest of the enumeration proceeds. -/
theorem extraction_failure_shape_and_build_isolation :
    (∀ e, extractContentAndMetadata (.text (.error e)) = ([], [("error", e)])) ∧
    (∀ e, extractContentAndMetadata (.pdf (.error e)) = ([], [("error", e)])) ∧
    (∀ e, extractContentAndMetadata (.docx (.error e)) = ([], [("error", e)])) ∧
    (∀ e, extractContentAndMetadata (.excel (.error e)) = ([], [("error", e)])) ∧
    (∀ e, extractContentAndMetadata (.image (.error e)) = ([], [("error", e)])) ∧
    (∀ e, extractContentAndMetadata (.audio (.error e)) = ([], [("error", e)])) ∧
    (∀ e, extractContentAndMetadata (.video (.error e)) = ([], [("error", e)])) ∧
    (∀ hash proc files c f, proc f = none →
      buildCatalog hash proc (f :: files) c = buildCatalog hash proc files c) := by
  refine ⟨fun e => rfl, fun e => rfl, fun e => rfl, fun e => rfl, fun e => rfl,
    fun e => rfl, fun e => rfl, fun hash proc files c f h => ?_⟩
  have hstep : buildStep hash proc c f = c := by
    unfold buildStep
    split
    · rfl
    · rw [h]
  show (f :: files).foldl (buildStep hash proc) c = files.foldl (buildStep hash proc) c
  rw [List.foldl_cons, hstep]

/-- C6 witness: a processor that fails on the one enumerated file leaves
the build over that enumeration equal to the build over the rest. -/
theorem extraction_failure_witness :
    buildCatalog (fun _ => "") (fun _ => none) [("a", "b")] emptyCatalog =
      buildCatalog (fun _ => "") (fun _ => none) [] emptyCatalog :=
  extraction_failure_shape_and_build_isolation.2.2.2.2.2.2.2
    (fun _ => "") (fun _ => none) [] emptyCatalog ("a", "b") rfl

/-! ## C7: file-size formatting -/

/-- C7: `_format_file_size` renders 0 bytes as "0.0 B", 1536 bytes as
"1.5 KB" and a NULL size as "Unknown"; in general it stops at the first
unit where the value is below 1024, dividing by 1024 per step. -/
theorem format_file_size_spec :
    formatFileSize (some 0) = "0.0 B" ∧
    formatFileSize (some 1536) = "1.5 KB" ∧
    formatFileSize none = "Unknown" ∧
    (∀ q : ℚ, q < 1024 → formatFileSize (some q) = formatOneDecimal q ++ " B") ∧
    (∀ q : ℚ, ¬ q < 1024 → q / 1024 < 1024 →
      formatFileSize (some q) = formatOneDecimal (q / 1024) ++ " KB") := by
  refine ⟨?_, ?_, rfl, fun q h => ?_, fun q h1 h2 => ?_⟩
  · rw [formatFileSize, formatSizeLoop_lt _ _ _ (by norm_num), formatOneDecimal]
    norm_num [round_eq]
    rfl
  · rw [formatFileSize, formatSizeLoop_ge _ _ _ (by norm_num)]
    norm_num
    rw [formatSizeLoop_lt _ _ _ (by norm_num), formatOneDecimal]
    norm_num [round_eq]
    rfl
  · rw [formatFileSize, formatSizeLoop_lt _ _ _ h, String.append_assoc]
    rfl
  · rw [formatFileSize, formatSizeLoop_ge _ _ _ h1, formatSizeLoop_lt _ _ _ h2,
      String.append_assoc]
    rfl

/-- C7 witness: the first-unit rule applied at 100 bytes. -/
theorem format_file_size_witness :
    formatFileSize (some 100) = formatOneDecimal 100 ++ " B" :=
  format_file_size_spec.2.2.2.1 100 (by decide)

/-! ## C8: lexical full-text search -/

/-- C8: the lexical fallback hands the database an OR-join of the query's
whitespace-separated terms (no empty terms) and returns at most 10
relevance-ordered results. -/
theorem fts_search_tokenization_and_limit (db : String → List FtsDbRow) (query : String) :
    (ftsSearch db query).length ≤ 10 ∧
    ((pySplitWhitespace query).all (fun t => t != "")) = true ∧
    ftsQueryString "hello world" = "hello OR world" ∧
    ftsQueryString "  several   spaced   terms " = "several OR spaced OR terms" := by
  refine ⟨?_, ?_, by decide, by decide⟩
  · simp only [ftsSearch, List.length_map, List.length_take]
    omega
  · rw [List.all_eq_true]
    intro t ht
    rw [bne_iff_ne]
    exact pySplitWhitespaceAux_ne_empty _ _ t ht

/-! ## C3: change detection and idempotent rebuilds -/

theorem find?_filter_preserve {α : Type} (l : List α) (p f : α → Bool)
    (h : ∀ x, p x = true → f x = true) : (l.filter f).find? p = l.find? p := by
  induction l with
  | nil => rfl
  | cons a tl ih =>
    rw [List.filter_cons]
    by_cases hf : f a
    · rw [if_pos hf]
      cases hpa : p a
      · simp [List.find?_cons, hpa, ih]
      · simp [List.find?_cons, hpa]
    · rw [if_neg hf]
      have hpa : p a = false := by
        cases hpa : p a
        · rfl
        · exact absurd (h a hpa) hf
      rw [ih, List.find?_cons, hpa]

theorem lookupRow_upsert_self (c : Catalog) (p n h d t : String) :
    lookupRow (upsertFile c p n h d t) p = some ⟨c.nextId, p, n, h, d, t⟩ := by
  unfold lookupRow upsertFile
  rw [List.find?_append]
  have hnone : (c.files.filter (fun r => r.path != p)).find? (fun r => r.path == p) = none := by
    rw [List.find?_eq_none]
    intro x hx
    have hne := (List.mem_filter.mp hx).2
    rw [bne_iff_ne] at hne
    simp [hne]
  rw [hnone]
  simp [List.find?]

theorem lookupRow_upsert_ne (c : Catalog) (q n h d t p : String) (hne : p ≠ q) :
    lookupRow (upsertFile c q n h d t) p = lookupRow c p := by
  unfold lookupRow upsertFile
  rw [List.find?_append]
  rw [find?_filter_preserve c.files (fun r => r.path == p) (fun r => r.path != q)
    (fun x hx => by
      rw [beq_iff_eq] at hx
      rw [bne_iff_ne, hx]
      exact hne)]
  have htail : (([⟨c.nextId, q, n, h, d, t⟩] : List FileRow).find? (fun r => r.path == p)) = none := by
    rw [List.find?_eq_none]
    intro x hx
    rw [List.mem_singleton] at hx
    subst hx
    show ¬ (q == p) = true
    rw [beq_iff_eq]
    exact fun hc => hne hc.symm
  rw [htail]
  cases c.files.find? (fun r => r.path == p) <;> rfl

theorem isFileAlreadyIndexed_congr (c₁ c₂ : Catalog) (hash : String → String)
    (f : String × String) (h : lookupRow c₁ f.1 = lookupRow c₂ f.1) :
    isFileAlreadyIndexed c₁ hash f = isFileAlreadyIndexed c₂ hash f := by
  unfold isFileAlreadyIndexed
  rw [h]

theorem isFileAlreadyIndexed_buildStep_self (hash : String → String)
    (describe : String → String → String) (extract : String → String)
    (c : Catalog) (f : String × String) :
    isFileAlreadyIndexed (buildStep hash (processFile hash describe extract) c f) hash f
      = true := by
  by_cases h : isFileAlreadyIndexed c hash f
  · rw [buildStep, if_pos h]
    exact h
  · rw [buildStep, if_neg h]
    show isFileAlreadyIndexed
      (upsertFile c f.1 (pathName f.1) (hash f.2) (describe f.1 f.2) (extract f.2)) hash f = true
    unfold isFileAlreadyIndexed
    rw [show f.1 = (f.1, f.2).1 from rfl, lookupRow_upsert_self]
    simp

theorem lookupRow_buildStep_ne (hash : String → String)
    (proc : String × String → Option FileInfo) (c : Catalog) (f : String × String)
    (p : String) (hne : p ≠ f.1) :
    lookupRow (buildStep hash proc c f) p = lookupRow c p := by
  by_cases h : isFileAlreadyIndexed c hash f
  · rw [buildStep, if_pos h]
  · rw [buildStep, if_neg h]
    cases hpf : proc f with
    | none => rfl
    | some fi =>
      show lookupRow (upsertFile c f.1 fi.name fi.contentHash fi.description fi.contentText) p
        = lookupRow c p
      exact lookupRow_upsert_ne c f.1 fi.name fi.contentHash fi.description fi.contentText p hne

theorem lookupRow_buildCatalog_not_mem (hash : String → String)
    (proc : String × String → Option FileInfo) (files : List (String × String))
    (c : Catalog) (p : String) (h : ∀ f ∈ files, p ≠ f.1) :
    lookupRow (buildCatalog hash proc files c) p = lookupRow c p := by
  induction files generalizing c with
  | nil => rfl
  | cons g rest ih =>
    show lookupRow (buildCatalog hash proc rest (buildStep hash proc c g)) p = lookupRow c p
    rw [ih (buildStep hash proc c g) (fun f hf => h f (List.mem_cons_of_mem _ hf))]
    exact lookupRow_buildStep_ne hash proc c g p (h g (List.mem_cons_self _ _))

theorem buildCatalog_all_indexed (hash : String → String)
    (describe : String → String → String) (extract : String → String)
    (files : List (String × String)) (hnd : (files.map Prod.fst).Nodup) (c : Catalog) :
    ∀ f ∈ files, isFileAlreadyIndexed
      (buildCatalog hash (processFile hash describe extract) files c) hash f = true := by
  induction files generalizing c with
  | nil =>
    intro f hf
    simp at hf
  | cons g rest ih =>
    intro f hf
    rw [List.map_cons, List.nodup_cons] at hnd
    rcases List.mem_cons.mp hf with hf | hf
    · subst hf
      have hlook : lookupRow
          (buildCatalog hash (processFile hash describe extract) (f :: rest) c) f.1
          = lookupRow (buildStep hash (processFile hash describe extract) c f) f.1 := by
        show lookupRow (buildCatalog hash (processFile hash describe extract) rest
          (buildStep hash (processFile hash describe extract) c f)) f.1 = _
        exact lookupRow_buildCatalog_not_mem _ _ rest _ f.1
          (fun f' hf' hc => hnd.1 (by rw [hc]; exact List.mem_map_of_mem Prod.fst hf'))
      rw [isFileAlreadyIndexed_congr _ _ hash f hlook]
      exact isFileAlreadyIndexed_buildStep_self hash describe extract c f
    · exact ih hnd.2 (buildStep hash (processFile hash describe extract) c g) f hf

theorem buildCatalog_of_all_indexed (hash : String → String)
    (proc : String × String → Option FileInfo) (files : List (String × String)) (c : Catalog)
    (h : ∀ f ∈ files, isFileAlreadyIndexed c hash f = true) :
    buildCatalog hash proc files c = c := by
  induction files with
  | nil => rfl
  | cons g rest ih =>
    have hstep : buildStep hash proc c g = c := by
      rw [buildStep, if_pos (h g (List.mem_cons_self _ _))]
    show rest.foldl (buildStep hash proc) (buildStep hash proc c g) = c
    rw [hstep]
    exact ih (fun f hf => h f (List.mem_cons_of_mem _ hf))

theorem isFileAlreadyIndexed_iff (c : Catalog) (hash : String → String) (p cont : String) :
    isFileAlreadyIndexed c hash (p, cont) = true ↔
      ∃ r, lookupRow c p = some r ∧ r.contentHash = hash cont := by
  unfold isFileAlreadyIndexed
  cases h : lookupRow c p with
  | none => simp [h]
  | some r => simp [h]

/-- C3: the change detector reports skip exactly when the stored digest
for the path equals the digest of the file's current bytes (no stored row
means reindex); and over a duplicate-free enumeration with unchanged
contents, a second build skips every file and leaves the whole store —
records and full-text index — identical. -/
theorem change_detector_skip_iff_and_build_idempotent
    (hash : String → String) (describe : String → String → String) (extract : String → String)
    (files : List (String × String)) (hnd : (files.map Prod.fst).Nodup) :
    (∀ c p cont, isFileAlreadyIndexed c hash (p, cont) = true ↔
      ∃ r, lookupRow c p = some r ∧ r.contentHash = hash cont) ∧
    (∀ f ∈ files, isFileAlreadyIndexed
        (buildCatalog hash (processFile hash describe extract) files emptyCatalog) hash f
        = true) ∧
    buildCatalog hash (processFile hash describe extract) files
        (buildCatalog hash (processFile hash describe extract) files emptyCatalog) =
      buildCatalog hash (processFile hash describe extract) files emptyCatalog :=
  ⟨fun c p cont => isFileAlreadyIndexed_iff c hash p cont,
   buildCatalog_all_indexed hash describe extract files hnd emptyCatalog,
   buildCatalog_of_all_indexed hash (processFile hash describe extract) files _
     (buildCatalog_all_indexed hash describe extract files hnd emptyCatalog)⟩

/-- C3 witness: rebuilding a concrete two-file catalog over unchanged
contents changes nothing. -/
theorem change_detector_witness :
    buildCatalog (fun s => s) (processFile (fun s => s) (fun _ _ => "d") (fun s => s))
        [("a", "1"), ("b", "2")]
        (buildCatalog (fun s => s) (processFile (fun s => s) (fun _ _ => "d") (fun s => s))
          [("a", "1"), ("b", "2")] emptyCatalog) =
      buildCatalog (fun s => s) (processFile (fun s => s) (fun _ _ => "d") (fun s => s))
        [("a", "1"), ("b", "2")] emptyCatalog :=
  (change_detector_skip_iff_and_build_idempotent (fun s => s) (fun _ _ => "d") (fun s => s)
    [("a", "1"), ("b", "2")] (by decide)).2.2

/-! ## C4: search fallback and total error handling -/

/-- C4: when the AI ranking stage yields no valid selected file, search
falls back to lexical full-text search over the same query string — with
the synthesized found-N message whenever that fallback is non-empty —
and every failure path (store exception, AI backend exception) still
resolves to a well-formed `SearchResult` with a message and a possibly
empty file list. -/
theorem search_fallback_and_never_raises
    (query : String) (descs : List FileSummary) (ai : AIResponse)
    (ftsFn : String → List MatchedFile)
    (hne : descs ≠ []) (hsel : selectedFiles ai descs = []) :
    (ftsFn query ≠ [] →
      searchEngineSearch query (.ok descs) (.ok ai) ftsFn =
        ⟨foundMessage query (ftsFn query).length, ftsFn query⟩) ∧
    (ftsFn query = [] →
      searchEngineSearch query (.ok descs) (.ok ai) ftsFn = ⟨ai.message, []⟩) ∧
    (∀ q e aiR fFn, searchEngineSearch q (.error e) aiR fFn = ⟨noCatalogMessage, []⟩) ∧
    (∀ q ds fFn e, ds ≠ [] →
      selectedFiles (aiSearchQueryResult (.error e)) ds = [] ∧
      searchEngineSearch q (.ok ds) (.error e) fFn =
        if fFn q = [] then
          ⟨"I encountered an error while searching. Please try again.", []⟩
        else ⟨foundMessage q (fFn q).length, fFn q⟩) := by
  have hde : descs.isEmpty = false := by
    cases descs with
    | nil => exact absurd rfl hne
    | cons a t => rfl
  refine ⟨fun hf => ?_, fun hf => ?_, fun q e aiR fFn => rfl, fun q ds fFn e hds => ?_⟩
  · have hfe : (ftsFn query).isEmpty = false := by
      cases hq : ftsFn query with
      | nil => exact absurd hq hf
      | cons a t => rfl
    simp [searchEngineSearch, getFileDescriptionsResult, aiSearchQueryResult, hde, hsel, hfe]
  · simp [searchEngineSearch, getFileDescriptionsResult, aiSearchQueryResult, hde, hsel, hf]
  · have hde2 : ds.isEmpty = false := by
      cases ds with
      | nil => exact absurd rfl hds
      | cons a t => rfl
    refine ⟨rfl, ?_⟩
    by_cases hq : fFn q = []
    · simp [searchEngineSearch, getFileDescriptionsResult, aiSearchQueryResult, hde2,
        selectedFiles, hq]
    · have hfe : (fFn q).isEmpty = false := by
        cases hqq : fFn q with
        | nil => exact absurd hqq hq
        | cons a t => rfl
      simp [searchEngineSearch, getFileDescriptionsResult, aiSearchQueryResult, hde2,
        selectedFiles, hq, hfe]

/-- C4 witness: with a cataloged file, an AI stage that selects nothing,
and an empty lexical fallback, search returns the AI message with an empty
file list. -/
theorem search_fallback_witness :
    searchEngineSearch "q" (.ok [⟨0, "f", "/f", "d", ".txt", some 1⟩])
        (.ok ⟨"msg", some []⟩) (fun _ => []) = ⟨"msg", []⟩ :=
  (search_fallback_and_never_raises "q" [⟨0, "f", "/f", "d", ".txt", some 1⟩]
    ⟨"msg", some []⟩ (fun _ => []) (by decide) rfl).2.1 rfl

/-! ## C5: out-of-range selection indices -/

theorem filterMap_filter_eq {α β : Type} (f : α → Option β) (p : α → Bool) (l : List α)
    (h : ∀ a, p a = false → f a = none) :
    l.filterMap f = (l.filter p).filterMap f := by
  induction l with
  | nil => rfl
  | cons a tl ih =>
    rw [List.filter_cons]
    by_cases hp : p a
    · rw [if_pos hp, List.filterMap_cons, List.filterMap_cons, ih]
    · have hpa : p a = false := by
        cases hq : p a
        · rfl
        · exact absurd hq hp
      rw [if_neg hp, List.filterMap_cons, h a hpa, ih]

/-- C5: selection indices outside `[1, N]` are silently dropped —
`_get_files_by_numbers` equals itself restricted to in-range indices — and
in particular index 999 against a 10-candidate catalog selects nothing, so
the engine falls through to the lexical fallback instead of crashing. -/
theorem out_of_range_indices_silently_discarded
    (descs : List FileSummary) (q m : String) (ftsFn : String → List MatchedFile)
    (hlen : descs.length = 10) :
    getFilesByNumbers [999] descs = [] ∧
    (∀ nums ds, getFilesByNumbers nums ds =
      getFilesByNumbers (nums.filter
        (fun n => decide (1 ≤ n) && decide (n ≤ (ds.length : Int)))) ds) ∧
    searchEngineSearch q (.ok descs) (.ok ⟨m, some [999]⟩) ftsFn =
      if ftsFn q = [] then ⟨m, []⟩ else ⟨foundMessage q (ftsFn q).length, ftsFn q⟩ := by
  have h999 : getFilesByNumbers [999] descs = [] := by
    rw [getFilesByNumbers, List.filterMap_cons, if_neg]
    · rfl
    · rw [hlen]
      intro hc
      omega
  refine ⟨h999, fun nums ds => ?_, ?_⟩
  · refine filterMap_filter_eq _ _ nums (fun a ha => ?_)
    rw [if_neg]
    intro hc
    simp [hc.1, hc.2] at ha
  · have hde : descs.isEmpty = false := by
      cases hd : descs with
      | nil => rw [hd] at hlen; simp at hlen
      | cons a t => rfl
    have hsel : selectedFiles ⟨m, some [999]⟩ descs = [] := by
      simp [selectedFiles, h999]
    by_cases hq : ftsFn q = []
    · simp [searchEngineSearch, getFileDescriptionsResult, aiSearchQueryResult, hde, hsel, hq]
    · have hfe : (ftsFn q).isEmpty = false := by
        cases hqq : ftsFn q with
        | nil => exact absurd hqq hq
        | cons a t => rfl
      simp [searchEngineSearch, getFileDescriptionsResult, aiSearchQueryResult, hde, hsel,
        hq, hfe]

/-- C5 witness: index 999 against a concrete 10-candidate catalog selects
nothing. -/
theorem out_of_range_witness :
    getFilesByNumbers [999] (List.replicate 10 (⟨0, "f", "/f", "d", ".txt", some 1⟩ : FileSummary))
      = [] :=
  (out_of_range_indices_silently_discarded
    (List.replicate 10 (⟨0, "f", "/f", "d", ".txt", some 1⟩ : FileSummary)) "q" "m"
    (fun _ => []) (by simp)).1

/-! ## C9: indices validated against the full catalog, not the shown 50 -/

/-- C9: the ranking prompt only ever shows the first 50 candidates — the
prompt over any list equals the prompt over its first 50 entries — yet a
returned index `k` with `50 < k <= N` is validated against the full
N-record list and resolves to its k-th file, one the ranker was never
shown, rather than being discarded. -/
theorem ranking_validates_against_full_list
    (descs : List FileSummary) (k : Nat) (h1 : 50 < k) (h2 : k ≤ descs.length) :
    (∀ q ds, createSearchPrompt q ds = createSearchPrompt q (ds.take 50)) ∧
    ∃ fi, descs[k - 1]? = some fi ∧
      getFilesByNumbers [(k : Int)] descs = [toMatchedFile fi] := by
  constructor
  · intro q ds
    unfold createSearchPrompt searchPromptLines
    rw [List.take_take]
    norm_num
  · have hk : k - 1 < descs.length := by omega
    refine ⟨descs[k - 1], List.getElem?_eq_getElem hk, ?_⟩
    have hcond : 1 ≤ (k : Int) ∧ (k : Int) ≤ (descs.length : Int) := by
      constructor
      · omega
      · exact_mod_cast h2
    have htn : ((k : Int) - 1).toNat = k - 1 := by omega
    rw [getFilesByNumbers, List.filterMap_cons, if_pos hcond, htn,
      List.getElem?_eq_getElem hk]
    rfl

/-- C9 witness: a 51-record catalog with returned index 51 — beyond the 50
shown — resolves to the 51st record. -/
theorem ranking_validates_witness :
    ∃ fi, (List.replicate 51 (⟨0, "f", "/f", "d", ".txt", some 1⟩ : FileSummary))[51 - 1]?
        = some fi ∧
      getFilesByNumbers [(51 : Int)]
        (List.replicate 51 (⟨0, "f", "/f", "d", ".txt", some 1⟩ : FileSummary))
        = [toMatchedFile fi] :=
  (ranking_validates_against_full_list
    (List.replicate 51 (⟨0, "f", "/f", "d", ".txt", some 1⟩ : FileSummary)) 51
    (by decide) (by simp)).2

/-! ## C10: response parsing — marker fallback and digit-only indices -/

theorem parseFileNumbers_mem (filesText : String) (n : Int)
    (h : n ∈ parseFileNumbers filesText) :
    0 ≤ n ∧ ∃ x ∈ pySplitComma filesText, pyIsDigit (pyStrip x) = true ∧
      n = Int.ofNat (digitsToNat (pyStrip x).toList) := by
  unfold parseFileNumbers at h
  by_cases hc : pyLower filesText != "none"
  · rw [if_pos hc] at h
    obtain ⟨x, hx, hfx⟩ := List.mem_filterMap.mp h
    simp only [tokenToFileNumber] at hfx
    by_cases hd : pyIsDigit (pyStrip x)
    · rw [if_pos hd] at hfx
      obtain rfl : Int.ofNat (digitsToNat (pyStrip x).toList) = n := Option.some_inj.mp hfx
      exact ⟨Int.natCast_nonneg _, x, hx, hd, rfl⟩
    · rw [if_neg hd] at hfx
      exact absurd hfx (by simp)
  · rw [if_neg hc] at h
    simp at h

/-- C10: a ranking-backend response missing either the `MESSAGE:` or the
`FILES:` marker parses to the entire raw response as the message with an
empty selection list; and every parsed selection index originates from a
comma-separated token whose stripped form is all decimal digits, so it is
the token's decimal value — never negative, never a non-integer. -/
theorem parse_response_fallback_and_digit_indices (response query : String) :
    ((pyFind response "MESSAGE:" = -1 ∨ pyFind response "FILES:" = -1) →
      parseSearchResponse response query = ⟨response, some []⟩) ∧
    (∀ ft n, n ∈ parseFileNumbers ft → 0 ≤ n ∧ ∃ x ∈ pySplitComma ft,
      pyIsDigit (pyStrip x) = true ∧ n = Int.ofNat (digitsToNat (pyStrip x).toList)) ∧
    (∀ n ∈ (parseSearchResponse response query).fileNumbers.getD [], 0 ≤ n) := by
  refine ⟨fun h => ?_, fun ft n hn => parseFileNumbers_mem ft n hn, fun n hn => ?_⟩
  · have hb : (pyFind response "MESSAGE:" != -1 && pyFind response "FILES:" != -1) = false := by
      rcases h with h | h <;> simp [h]
    simp [parseSearchResponse, hb]
  · simp only [parseSearchResponse] at hn
    split at hn
    · simp only [Option.getD_some] at hn
      exact (parseFileNumbers_mem _ n hn).1
    · simp at hn

/-- C10 witness: a marker-free response parses to itself as the message
with no selections. -/
theorem parse_response_witness :
    parseSearchResponse "no markers here" "q" = ⟨"no markers here", some []⟩ :=
  (parse_response_fallback_and_digit_indices "no markers here" "q").1 (Or.inl (by decide))

end AILibrary
